import Mathlib

/-!
Shallow embedding of the clickup-motion-sync reconciliation core.

The embedding translates the TypeScript sources:
* `src/dataTransformer.ts`   — the two field-transformer functions,
* `src/syncPairProcessor.ts` — `processSyncPair` (the Pair Reconciler),
* `src/syncController.ts`    — `runSync` (the Run Orchestrator),
* `src/dbClient.ts`          — the TaskLinks / SyncMappings store operations.

Modelling conventions:
* JavaScript numbers that hold integral values (millisecond timestamps,
  minute durations) are modelled as `Int`.
* A payload field that may be absent is an `Option`; a field whose JS value
  may itself be `null` while present is a nested `Option` (or `JsNumOrNull`
  when `NaN` is also reachable).
* The ambient JavaScript `Date` facilities (`new Date(s).getTime()`,
  `new Date(ms).toISOString()`, and "today") are abstracted into a `DateEnv`
  parameter; theorems quantify over every such environment.
* Fallible external calls (remote fetch / create / update, DB link insert)
  are driven by an outcome environment `PairEnv`; a `none` / `false` outcome
  models the call raising, which the source catches at the scope shown.
* The D1 store is an in-memory list; its point lookups never fail.
-/

namespace ClickupMotionSync

/-- A JavaScript number-or-null slot as it can actually occur in the ClickUp
update payload's `due_date` field: a finite number, `null`, or `NaN`
(the result of `new Date(s).getTime()` on an unparseable string). -/
inductive JsNumOrNull where
  | jnull
  | jnan
  | jnum (n : Int)
deriving DecidableEq, Repr

/-- The fields of a ClickUp task consumed by the sync core
(`ClickUpTask` in `src/types.ts`, restricted to the fields the core reads). -/
structure ClickUpTask where
  id : String
  name : String
  text_content : Option String := none
  description : Option String := none
  due_date : Option String := none
  time_estimate : Option Int := none
  assignees : List Int := []
deriving DecidableEq, Repr

/-- The fields of a Motion task consumed by the sync core
(`MotionTask` in `src/types.ts`, restricted to the fields the core reads). -/
structure MotionTask where
  id : String
  name : String
  dueDate : Option String := none
  completed : Bool := false
  duration : Option Int := none
deriving DecidableEq, Repr

/-- The fixed auto-scheduling block attached to Motion creation payloads. -/
structure AutoSchedule where
  startDate : String
  deadlineType : String
  schedule : String
deriving DecidableEq, Repr

/-- `MotionCreatePayload` from `src/types.ts`, with presence of optional
fields made explicit.  `autoScheduled = some none` models the field being
explicitly set to `null`; `none` models the field never being assigned. -/
structure MotionCreatePayload where
  workspaceId : String
  name : String
  description : Option String := none
  dueDate : Option String := none
  duration : Option Int := none
  assigneeIds : Option (List String) := none
  autoScheduled : Option (Option AutoSchedule) := none
deriving DecidableEq, Repr

/-- `ClickUpUpdatePayload` from `src/types.ts`.  For each field, `none`
means the key is absent from the object; `time_estimate = some none`
models the key present with value `null`. -/
structure ClickUpUpdatePayload where
  due_date : Option JsNumOrNull := none
  status : Option String := none
  time_estimate : Option (Option Int) := none
deriving DecidableEq, Repr

/-- Number of keys present on the update payload object
(`Object.keys(clickupPayload).length` in the source). -/
def ClickUpUpdatePayload.keyCount (p : ClickUpUpdatePayload) : Nat :=
  (if p.due_date.isSome then 1 else 0) +
  (if p.status.isSome then 1 else 0) +
  (if p.time_estimate.isSome then 1 else 0)

/-- The ambient JavaScript date facilities used by the transformer, made
explicit.  `parseISO s` models `new Date(s).getTime()` (`none` = `NaN`,
i.e. the string is unparseable); `toISO ms` models
`new Date(ms).toISOString()` (`none` = the call throws a `RangeError`);
`todayYYYYMMDD` models `formatDateYYYYMMDD(new Date())`, the current
wall-clock date at the moment of evaluation. -/
structure DateEnv where
  parseISO : String → Option Int
  toISO : Int → Option String
  todayYYYYMMDD : String

/-- Decimal value of a digit list (helper for `parseIntJS`). -/
def digitsVal (cs : List Char) : Nat :=
  cs.foldl (fun a c => a * 10 + (c.toNat - 48)) 0

/-- Model of JavaScript `parseInt(s, 10)`: skip leading spaces, accept an
optional sign, read the leading run of decimal digits; `none` models the
`NaN` result when no digits are found. -/
def parseIntJS (s : String) : Option Int :=
  let cs := s.data.dropWhile (fun c => c = ' ')
  match cs with
  | '-' :: r =>
    let ds := r.takeWhile Char.isDigit
    if ds.isEmpty then none else some (-(digitsVal ds : Int))
  | '+' :: r =>
    let ds := r.takeWhile Char.isDigit
    if ds.isEmpty then none else some (digitsVal ds : Int)
  | r =>
    let ds := r.takeWhile Char.isDigit
    if ds.isEmpty then none else some (digitsVal ds : Int)

/-- `Math.round(num / den)` for a positive denominator: JavaScript rounds
half toward positive infinity, i.e. `⌊num/den + 1/2⌋`. -/
def jsMathRoundRat (num den : Int) : Int :=
  Int.fdiv (2 * num + den) (2 * den)

/-- The single configured "done" status name
(`CLICKUP_DONE_STATUS_NAME` in `src/dataTransformer.ts`). -/
def CLICKUP_DONE_STATUS_NAME : String := "complete"

/-- `clickUpDateToMotionISO` from `src/dataTransformer.ts`: converts a
ClickUp millisecond-timestamp string to an ISO string, returning `null`
(`none`) when the input is nullish/empty, fails `parseInt`, or the
`toISOString` call throws (the `catch` branch). -/
def clickUpDateToMotionISO (env : DateEnv) (dateString : Option String) :
    Option String :=
  match dateString with
  | none => none
  | some s =>
    if s = "" then none            -- `if (!dateString) return null`
    else
      match parseIntJS s with
      | none => none               -- `if (isNaN(timestampMs)) return null`
      | some timestampMs =>
        match env.toISO timestampMs with
        | some iso => some iso
        | none => none             -- RangeError caught; returns null

/-- `motionISOToClickUpTimestamp` from `src/dataTransformer.ts`: converts a
Motion ISO string to a millisecond timestamp.  Nullish/empty input yields
`null`; an unparseable string yields `NaN`, because
`new Date(s).getTime()` returns `NaN` without throwing, and the function
has no `isNaN` guard. -/
def motionISOToClickUpTimestamp (env : DateEnv) (isoString : Option String) :
    JsNumOrNull :=
  match isoString with
  | none => .jnull
  | some s =>
    if s = "" then .jnull          -- `if (!isoString) return null`
    else
      match env.parseISO s with
      | some n => .jnum n
      | none => .jnan              -- Invalid Date: getTime() is NaN

/-- Crosswalk lookup: `userMap.get(id)` on the `Map<number, string>`. -/
def lookupUser (userMap : List (Int × String)) (k : Int) : Option String :=
  (userMap.find? (fun p => p.1 == k)).map (fun p => p.2)

/-- `transformClickUpToMotion` from `src/dataTransformer.ts`
(`toCreationPayload` in the spec).  Field by field:
name verbatim; description from `text_content ?? description` if truthy;
due date through `clickUpDateToMotionISO` if truthy; duration by
`Math.round(time_estimate / 60000)` guarded by `time_estimate && > 0` and
a positive rounded value; assignees mapped through the crosswalk with
falsy results filtered out; and an auto-scheduling block whose `startDate`
is the current wall-clock date (`env.todayYYYYMMDD`). -/
def transformClickUpToMotion (env : DateEnv) (clickUpTask : ClickUpTask)
    (motionWorkspaceId : String) (userMap : List (Int × String)) :
    MotionCreatePayload :=
  let p0 : MotionCreatePayload :=
    { workspaceId := motionWorkspaceId, name := clickUpTask.name }
  -- Description: `clickUpTask.text_content ?? clickUpTask.description`
  let description := clickUpTask.text_content <|> clickUpTask.description
  let p1 := match description with
    | some d => if d ≠ "" then { p0 with description := some d } else p0
    | none => p0
  -- Due Date
  let dueDateISO := clickUpDateToMotionISO env clickUpTask.due_date
  let p2 := match dueDateISO with
    | some s => if s ≠ "" then { p1 with dueDate := some s } else p1
    | none => p1
  -- Time Estimate (ClickUp -> Motion): `time_estimate && time_estimate > 0`
  let p3 := match clickUpTask.time_estimate with
    | some e =>
      if e ≠ 0 ∧ 0 < e then
        let durationMinutes := jsMathRoundRat e 60000
        if 0 < durationMinutes then { p2 with duration := some durationMinutes }
        else p2
      else p2
    | none => p2
  -- Assignees: map through the crosswalk, filter falsy mapped ids
  let p4 :=
    if clickUpTask.assignees ≠ [] then
      { p3 with assigneeIds := some (clickUpTask.assignees.filterMap
          (fun aid =>
            match lookupUser userMap aid with
            | some motionId => if motionId ≠ "" then some motionId else none
            | none => none)) }
    else p3
  -- Auto-Scheduling: startDate is today's date; `formatDateYYYYMMDD` cannot
  -- throw, so the catch branch (assigning null) is dead in the embedding.
  { p4 with autoScheduled := some (some
      { startDate := env.todayYYYYMMDD
        deadlineType := "SOFT"
        schedule := "Work Hours" }) }

/-- `transformMotionToClickUp` from `src/dataTransformer.ts`
(`toUpdatePayload` in the spec).  The `due_date` key is assigned
unconditionally (possibly to `null` or `NaN`); `status` is assigned only
when the Motion task is completed; `time_estimate` is assigned to
`Math.round(duration * 60000)` for a positive duration (`Math.round` of an
integral value is the identity) and to `null` when the duration is exactly
zero.  The final `Object.keys`-length check in the source returns the same
object in both branches. -/
def transformMotionToClickUp (env : DateEnv) (motionTask : MotionTask) :
    ClickUpUpdatePayload :=
  let dueDateTimestamp := motionISOToClickUpTimestamp env motionTask.dueDate
  let p0 : ClickUpUpdatePayload := { due_date := some dueDateTimestamp }
  let p1 :=
    if motionTask.completed then { p0 with status := some CLICKUP_DONE_STATUS_NAME }
    else p0
  let p2 := match motionTask.duration with
    | some d =>
      if d ≠ 0 ∧ 0 < d then          -- `duration && duration > 0`
        let estimateMs := d * 60000  -- `Math.round(duration * 60000)`
        if 0 < estimateMs then { p1 with time_estimate := some (some estimateMs) }
        else p1
      else if d = 0 then { p1 with time_estimate := some none }  -- explicit null
      else p1
    | none => p1
  p2

/-- A row of the `TaskLinks` table (`TaskLink` in `src/types.ts`). -/
structure TaskLink where
  clickup_task_id : String
  motion_task_id : String
deriving DecidableEq, Repr

/-- The `TaskLinks` table, as an in-memory list of rows. -/
abbrev LinkStore := List TaskLink

/-- `getTaskLinkByClickupId` from `src/dbClient.ts`: point lookup by
ClickUp task id. -/
def getTaskLinkByClickupId (store : LinkStore) (clickupTaskId : String) :
    Option TaskLink :=
  store.find? (fun l => l.clickup_task_id == clickupTaskId)

/-- `getTaskLinkByMotionId` from `src/dbClient.ts`: point lookup by
Motion task id. -/
def getTaskLinkByMotionId (store : LinkStore) (motionTaskId : String) :
    Option TaskLink :=
  store.find? (fun l => l.motion_task_id == motionTaskId)

/-- `createTaskLink` from `src/dbClient.ts`: insert a new link row. -/
def createTaskLink (store : LinkStore) (clickupTaskId motionTaskId : String) :
    LinkStore :=
  { clickup_task_id := clickupTaskId, motion_task_id := motionTaskId } :: store

/-- One observable remote write performed by the reconciler: a Motion task
creation (recording which ClickUp task triggered it, the payload sent and
the task the Motion API returned) or a ClickUp task update. -/
inductive Write where
  | createMotion (forClickupId : String) (payload : MotionCreatePayload)
      (created : MotionTask)
  | updateClickUp (taskId : String) (payload : ClickUpUpdatePayload)
deriving DecidableEq, Repr

/-- Whether a write is a remote creation. -/
def Write.isCreate : Write → Bool
  | .createMotion .. => true
  | .updateClickUp .. => false

/-- Outcomes of the fallible external calls made while processing one
pairing.  `fetch` is the combined `Promise.all` of the two changed-object
fetches (`.error` = either fetch raised); `createResult cid` is the Motion
task returned by `motionClient.createTask` for the ClickUp task `cid`
(`none` = the call raised); `linkInsertOk cid` is whether
`createTaskLink` succeeded for `cid` (false = the insert raised, e.g. a
uniqueness violation); `updateOk mid` is whether
`clickupClient.updateTask` succeeded for the update triggered by the
Motion task `mid`. -/
structure PairEnv where
  fetch : String → Except Unit (List ClickUpTask × List MotionTask)
  createResult : String → Option MotionTask
  linkInsertOk : String → Bool
  updateOk : String → Bool

/-- Step 2 of `processSyncPair` (`src/syncPairProcessor.ts`): the loop over
changed ClickUp tasks.  An unlinked task is transformed and created in
Motion, then a link row is inserted; a failure of the create or the insert
is caught (`try/catch` inside the loop body) and processing continues with
the next task.  A linked task is skipped.  Returns the store after all
inserts together with the remote creations performed. -/
def processClickUpTasks (env : PairEnv) (dateEnv : DateEnv)
    (userMap : List (Int × String)) (motionWorkspaceId : String) :
    LinkStore → List ClickUpTask → LinkStore × List Write
  | store, [] => (store, [])
  | store, clkTask :: rest =>
    match getTaskLinkByClickupId store clkTask.id with
    | some _ =>
      -- already linked: no C->M action
      processClickUpTasks env dateEnv userMap motionWorkspaceId store rest
    | none =>
      let motionPayload :=
        transformClickUpToMotion dateEnv clkTask motionWorkspaceId userMap
      match env.createResult clkTask.id with
      | none =>
        -- `motionClient.createTask` raised; caught, continue with next task
        processClickUpTasks env dateEnv userMap motionWorkspaceId store rest
      | some newMotionTask =>
        let w := Write.createMotion clkTask.id motionPayload newMotionTask
        if env.linkInsertOk clkTask.id then
          let store' := createTaskLink store clkTask.id newMotionTask.id
          let r := processClickUpTasks env dateEnv userMap motionWorkspaceId store' rest
          (r.1, w :: r.2)
        else
          -- `createTaskLink` raised after the remote create; caught, continue
          let r := processClickUpTasks env dateEnv userMap motionWorkspaceId store rest
          (r.1, w :: r.2)

/-- Step 3 of `processSyncPair`: the loop over changed Motion tasks.  A
linked task is transformed to an update payload, and if the payload has at
least one key the linked ClickUp task is updated; an update failure is
caught and processing continues.  An unlinked task is skipped.  The loop
never modifies the link store; it returns the updates performed. -/
def processMotionTasks (env : PairEnv) (dateEnv : DateEnv)
    (store : LinkStore) : List MotionTask → List Write
  | [] => []
  | motTask :: rest =>
    match getTaskLinkByMotionId store motTask.id with
    | some existingLink =>
      let clickupPayload := transformMotionToClickUp dateEnv motTask
      if clickupPayload.keyCount > 0 then
        if env.updateOk motTask.id then
          Write.updateClickUp existingLink.clickup_task_id clickupPayload ::
            processMotionTasks env dateEnv store rest
        else
          -- `clickupClient.updateTask` raised; caught, continue
          processMotionTasks env dateEnv store rest
      else
        -- "no relevant changes" branch (shown unreachable below)
        processMotionTasks env dateEnv store rest
    | none =>
      -- Motion task not linked to any ClickUp task: ignore
      processMotionTasks env dateEnv store rest

/-- `processSyncPair` from `src/syncPairProcessor.ts`: one pairing's
reconciliation pass.  A failure of the changed-object fetch step
(`Promise.all` of the two fetches) propagates out as `.error`; every other
failure is caught inside the per-object loops. -/
def processSyncPair (env : PairEnv) (dateEnv : DateEnv)
    (userMap : List (Int × String)) (motionWorkspaceId : String)
    (lastSyncTimestamp : String) (store : LinkStore) :
    Except Unit (LinkStore × List Write) :=
  match env.fetch lastSyncTimestamp with
  | .error e => .error e
  | .ok (updatedClickUpTasks, updatedMotionTasks) =>
    let r := processClickUpTasks env dateEnv userMap motionWorkspaceId
      store updatedClickUpTasks
    let updateWrites := processMotionTasks env dateEnv r.1 updatedMotionTasks
    .ok (r.1, r.2 ++ updateWrites)

/-- A row of the `SyncMappings` table (`SyncMapping` in `src/types.ts`),
restricted to the fields `runSync` reads. -/
structure SyncMapping where
  id : Nat
  clickup_list_id : String
  motion_workspace_id : String
  last_sync_timestamp : Option String := none
deriving DecidableEq, Repr

/-- The epoch default used when a mapping has no stored cursor. -/
def EPOCH_ISO : String := "1970-01-01T00:00:00Z"

/-- `last_sync_timestamp || '1970-01-01T00:00:00Z'` from `runSync`: the JS
`||` also replaces an empty string with the epoch. -/
def lastSyncOf (m : SyncMapping) : String :=
  match m.last_sync_timestamp with
  | some s => if s = "" then EPOCH_ISO else s
  | none => EPOCH_ISO

/-- The observable outcome of one `runSync` invocation: the final link
store, the final per-mapping cursor (the `last_sync_timestamp` column
after the run), and all remote writes performed. -/
structure RunResult where
  store : LinkStore
  cursors : List (Nat × Option String)
  writes : List Write
deriving DecidableEq, Repr

/-- `runSync` from `src/syncController.ts` (the Run Orchestrator).  For
each mapping it computes `lastSync` (`last_sync_timestamp || epoch`; the
JS `||` also replaces an empty string), captures
`currentSyncStartTimeISO = new Date().toISOString()` — modelled by
`startTimes mapping.id`, the wall-clock time at the start of that
pairing's pass — then runs `processSyncPair` and, only on success, commits
the captured start time as the mapping's cursor
(`updateSyncTimestamp`).  An error is caught and logged, leaving that
mapping's cursor unchanged, and the remaining mappings still run
(`Promise.allSettled`; the concurrent pairings are linearized in mapping
order here).  The source calls `processSyncPair` without the `userMap`
argument — a TypeScript arity error; the embedding passes the configured
map through. -/
def runSync (envs : Nat → PairEnv) (dateEnv : DateEnv)
    (userMap : List (Int × String)) (startTimes : Nat → String) :
    LinkStore → List SyncMapping → RunResult
  | store, [] => { store := store, cursors := [], writes := [] }
  | store, mapping :: rest =>
    let lastSync := lastSyncOf mapping
    let currentSyncStartTimeISO := startTimes mapping.id
    match processSyncPair (envs mapping.id) dateEnv userMap
      mapping.motion_workspace_id lastSync store with
    | .ok (store', pairWrites) =>
      let r := runSync envs dateEnv userMap startTimes store' rest
      { store := r.store
        cursors := (mapping.id, some currentSyncStartTimeISO) :: r.cursors
        writes := pairWrites ++ r.writes }
    | .error _ =>
      -- caught and logged; the cursor is left unchanged
      let r := runSync envs dateEnv userMap startTimes store rest
      { store := r.store
        cursors := (mapping.id, mapping.last_sync_timestamp) :: r.cursors
        writes := r.writes }

/-- Final cursor of mapping `i` after a run. -/
def lookupCursor (cursors : List (Nat × Option String)) (i : Nat) :
    Option (Option String) :=
  (cursors.find? (fun p => p.1 == i)).map (fun p => p.2)

/-- Whether an `Except` result is a success. -/
def isOk {ε α : Type} : Except ε α → Bool
  | .ok _ => true
  | .error _ => false

/-! ## Two-run world model

For the idempotence claim we close the loop between the reconciler's
remote writes and what the next run's fetches return.  A remote world
pairs each task with its last-modified timestamp (an integer, standing
for the parsed `date_updated` / `updatedTime`); fetching changed objects
filters strictly (`date_updated_gt` server-side for ClickUp, the
client-side `updatedTime > cursor` filter for Motion). -/

/-- The ClickUp list: tasks with their `date_updated` timestamps. -/
structure WorldA where
  tasks : List (ClickUpTask × Int)
deriving DecidableEq, Repr

/-- The Motion workspace: tasks with their `updatedTime` timestamps. -/
structure WorldB where
  tasks : List (MotionTask × Int)
deriving DecidableEq, Repr

/-- `clickupClient.getTasksUpdatedSince`: tasks with
`date_updated > cursor` (the `date_updated_gt` server-side filter). -/
def fetchChangedA (w : WorldA) (cursor : Int) : List ClickUpTask :=
  (w.tasks.filter (fun p => cursor < p.2)).map (fun p => p.1)

/-- `motionClient.getTasksUpdatedSince`: tasks with
`updatedTime > cursor` (the client-side filter over the full listing). -/
def fetchChangedB (w : WorldB) (cursor : Int) : List MotionTask :=
  (w.tasks.filter (fun p => cursor < p.2)).map (fun p => p.1)

/-- Per-object outcome environment for a world-level run: outcomes of the
fallible calls plus the timestamps the remote systems assign to the
sync's own writes (`createdTime mid` = the `updatedTime` of a Motion task
created by the sync; `updTime cid` = the `date_updated` a ClickUp task
receives when the sync updates it). -/
structure ObjEnv where
  createResult : String → Option MotionTask
  linkInsertOk : String → Bool
  updateOk : String → Bool
  createdTime : String → Int
  updTime : String → Int

/-- Build the `PairEnv` a world presents to `processSyncPair`: the fetch
step returns the changed objects of each side (and never raises). -/
def ObjEnv.toPairEnv (e : ObjEnv) (wA : WorldA) (wB : WorldB) (cursor : Int) :
    PairEnv :=
  { fetch := fun _ => .ok (fetchChangedA wA cursor, fetchChangedB wB cursor)
    createResult := e.createResult
    linkInsertOk := e.linkInsertOk
    updateOk := e.updateOk }

/-- Effect of one remote write on the ClickUp world: an update bumps the
target task's `date_updated` (the reconciler never reads the other fields
of an already-linked ClickUp task, so the payload's field effects are not
tracked); a Motion creation does not touch the ClickUp world. -/
def applyWriteA (e : ObjEnv) (w : WorldA) : Write → WorldA
  | .updateClickUp taskId _ =>
    { tasks := w.tasks.map (fun p =>
        if p.1.id = taskId then (p.1, e.updTime taskId) else p) }
  | .createMotion .. => w

/-- Effect of one remote write on the Motion world: a creation appends the
returned task, timestamped by the Motion system; a ClickUp update does
not touch the Motion world. -/
def applyWriteB (e : ObjEnv) (w : WorldB) : Write → WorldB
  | .createMotion _ _ created =>
    { tasks := w.tasks ++ [(created, e.createdTime created.id)] }
  | .updateClickUp .. => w

/-- Outcome of one world-level run of the Pair Reconciler. -/
structure WorldRunResult where
  wA : WorldA
  wB : WorldB
  store : LinkStore
  cursor : Int
  writes : List Write
deriving DecidableEq, Repr

/-- One run of the Pair Reconciler against a remote world: fetch the
objects changed strictly after `cursor` on both sides, process them with
`processSyncPair`, apply the performed writes to the worlds, and commit
the cursor to `startTime` — the wall-clock time captured at the start of
the pass.  (The fetch built from a world never raises, so the pass always
completes and the error branch is unreachable.) -/
def runOnceWorld (e : ObjEnv) (dateEnv : DateEnv)
    (userMap : List (Int × String)) (motionWorkspaceId : String)
    (wA : WorldA) (wB : WorldB) (store : LinkStore)
    (cursor startTime : Int) : WorldRunResult :=
  match processSyncPair (e.toPairEnv wA wB cursor) dateEnv userMap
    motionWorkspaceId (toString cursor) store with
  | .ok (store', writes) =>
    { wA := writes.foldl (applyWriteA e) wA
      wB := writes.foldl (applyWriteB e) wB
      store := store'
      cursor := startTime
      writes := writes }
  | .error _ =>
    { wA := wA, wB := wB, store := store, cursor := cursor, writes := [] }

/-! ## Characterization of the transformers -/

/-- Field-by-field value of `transformMotionToClickUp` (`toUpdatePayload`). -/
lemma transformMotionToClickUp_eq (env : DateEnv) (t : MotionTask) :
    transformMotionToClickUp env t =
      { due_date := some (motionISOToClickUpTimestamp env t.dueDate)
        status := if t.completed then some CLICKUP_DONE_STATUS_NAME else none
        time_estimate :=
          match t.duration with
          | some d => if 0 < d then some (some (d * 60000))
                      else if d = 0 then some none else none
          | none => none } := by
  cases hc : t.completed <;> cases hd : t.duration <;>
    simp [transformMotionToClickUp, hc, hd] <;> split_ifs <;>
    first
      | rfl
      | omega

/-- Field-by-field value of `transformClickUpToMotion` (`toCreationPayload`). -/
lemma transformClickUpToMotion_eq (env : DateEnv) (ct : ClickUpTask)
    (ws : String) (um : List (Int × String)) :
    transformClickUpToMotion env ct ws um =
      { workspaceId := ws
        name := ct.name
        description := match ct.text_content <|> ct.description with
          | some d => if d = "" then none else some d
          | none => none
        dueDate := match clickUpDateToMotionISO env ct.due_date with
          | some s => if s = "" then none else some s
          | none => none
        duration := match ct.time_estimate with
          | some e => if 0 < e ∧ 0 < jsMathRoundRat e 60000
                      then some (jsMathRoundRat e 60000) else none
          | none => none
        assigneeIds := if ct.assignees = [] then none
          else some (ct.assignees.filterMap (fun aid =>
            match lookupUser um aid with
            | some mid => if mid = "" then none else some mid
            | none => none))
        autoScheduled := some (some
          { startDate := env.todayYYYYMMDD
            deadlineType := "SOFT"
            schedule := "Work Hours" }) } := by
  cases h1 : ct.text_content <|> ct.description <;>
  cases h2 : clickUpDateToMotionISO env ct.due_date <;>
  cases h3 : ct.time_estimate <;>
  by_cases h4 : ct.assignees = [] <;>
    simp [transformClickUpToMotion, h1, h2, h3, h4] <;> split_ifs <;>
    first
      | rfl
      | omega
      | simp_all

/-- The due-date key of the update payload is always present. -/
lemma due_date_isSome (env : DateEnv) (t : MotionTask) :
    ((transformMotionToClickUp env t).due_date).isSome = true := by
  rw [transformMotionToClickUp_eq]
  rfl

/-- The update payload always has at least one key. -/
lemma keyCount_pos (env : DateEnv) (t : MotionTask) :
    (transformMotionToClickUp env t).keyCount > 0 := by
  have h := due_date_isSome env t
  unfold ClickUpUpdatePayload.keyCount
  simp [h]

/-- `motionISOToClickUpTimestamp` depends on the environment only through
`parseISO`. -/
lemma motionISOToClickUpTimestamp_congr {e₁ e₂ : DateEnv}
    (h : e₁.parseISO = e₂.parseISO) (d : Option String) :
    motionISOToClickUpTimestamp e₁ d = motionISOToClickUpTimestamp e₂ d := by
  cases d <;> simp [motionISOToClickUpTimestamp, h]

/-- `clickUpDateToMotionISO` depends on the environment only through
`toISO`. -/
lemma clickUpDateToMotionISO_congr {e₁ e₂ : DateEnv}
    (h : e₁.toISO = e₂.toISO) (d : Option String) :
    clickUpDateToMotionISO e₁ d = clickUpDateToMotionISO e₂ d := by
  cases d <;> simp [clickUpDateToMotionISO, h]

/-- Creation payload with the auto-scheduling block erased (the block is
the only part of the payload read off the wall clock). -/
def eraseAutoScheduled (p : MotionCreatePayload) : MotionCreatePayload :=
  { p with autoScheduled := none }

/-! ## Claims C5 — C9 -/

/-- C5: for every B-object, the update payload produced by
`toUpdatePayload` carries a due-date field set from the B-object's current
due date on every pass; when B has no due date the payload explicitly sets
A's due date to cleared (`null`), which is distinct from the field being
absent (`due_date = none` would model absence; the payload always has
`due_date = some _`). -/
theorem update_payload_due_date_always_set (env : DateEnv) (mt : MotionTask) :
    (transformMotionToClickUp env mt).due_date
        = some (motionISOToClickUpTimestamp env mt.dueDate)
      ∧ (mt.dueDate = none →
        (transformMotionToClickUp env mt).due_date = some JsNumOrNull.jnull) := by
  constructor
  · rw [transformMotionToClickUp_eq]
  · intro h
    rw [transformMotionToClickUp_eq]
    simp [h, motionISOToClickUpTimestamp]

/-- Witness for C5 at a concrete Motion task with no due date. -/
theorem update_payload_due_date_always_set_witness :
    (transformMotionToClickUp
        ⟨fun _ => none, fun _ => none, "2024-05-01"⟩
        { id := "b9", name := "n", dueDate := none }).due_date
      = some JsNumOrNull.jnull :=
  (update_payload_due_date_always_set
    ⟨fun _ => none, fun _ => none, "2024-05-01"⟩
    { id := "b9", name := "n", dueDate := none }).2 rfl

/-- C6: the update payload contains the status field, set to the single
configured done-status name, exactly when the B-object reports
`completed = true`; otherwise the payload has no status key at all, so a
sync never downgrades A's status. -/
theorem update_payload_status_iff_completed (env : DateEnv) (mt : MotionTask) :
    (transformMotionToClickUp env mt).status
      = (if mt.completed then some CLICKUP_DONE_STATUS_NAME else none) := by
  rw [transformMotionToClickUp_eq]

/-- C7: duration conversion follows exact integer arithmetic in both
directions.  A-to-B: an estimate of 90000 ms becomes 2 minutes
(`Math.round` rounds half up), and the duration field is omitted when the
estimate is absent, zero, or rounds to zero minutes.  B-to-A: a positive
duration `d` yields `time_estimate = d * 60000` ms (`Math.round` of an
integral product is the identity), a duration of exactly 0 yields an
explicit `null` (`some none`, distinct from omission `none`), and an
absent duration leaves the estimate field untouched. -/
theorem duration_conversion_exact (env : DateEnv) (ct : ClickUpTask)
    (ws : String) (um : List (Int × String)) (mt : MotionTask) :
    (ct.time_estimate = some 90000 →
        (transformClickUpToMotion env ct ws um).duration = some 2)
      ∧ (ct.time_estimate = none →
        (transformClickUpToMotion env ct ws um).duration = none)
      ∧ (ct.time_estimate = some 0 →
        (transformClickUpToMotion env ct ws um).duration = none)
      ∧ (∀ e : Int, ct.time_estimate = some e → jsMathRoundRat e 60000 = 0 →
        (transformClickUpToMotion env ct ws um).duration = none)
      ∧ (∀ d : Int, mt.duration = some d → 0 < d →
        (transformMotionToClickUp env mt).time_estimate = some (some (d * 60000)))
      ∧ (mt.duration = some 0 →
        (transformMotionToClickUp env mt).time_estimate = some none)
      ∧ (mt.duration = none →
        (transformMotionToClickUp env mt).time_estimate = none) := by
  refine ⟨?_, ?_, ?_, ?_, ?_, ?_, ?_⟩ <;>
    first
      | (intro h
         rw [transformClickUpToMotion_eq]
         simp [h]
         decide)
      | (intro h
         rw [transformClickUpToMotion_eq]
         simp [h])
      | (intro e he hr
         rw [transformClickUpToMotion_eq]
         simp [he, hr])
      | (intro d hd hpos
         rw [transformMotionToClickUp_eq]
         simp [hd, hpos])
      | (intro h
         rw [transformMotionToClickUp_eq]
         simp [h])

/-- Witness for C7: the 90000 ms to 2 minutes case and the explicit-clear
case evaluated at concrete tasks. -/
theorem duration_conversion_exact_witness :
    (transformClickUpToMotion ⟨fun _ => none, fun _ => none, "D"⟩
        { id := "a", name := "n", time_estimate := some 90000 } "W" []).duration
        = some 2
      ∧ (transformMotionToClickUp ⟨fun _ => none, fun _ => none, "D"⟩
        { id := "b", name := "n", duration := some 0 }).time_estimate
        = some none :=
  ⟨(duration_conversion_exact ⟨fun _ => none, fun _ => none, "D"⟩
      { id := "a", name := "n", time_estimate := some 90000 } "W" []
      { id := "b", name := "n", duration := some 0 }).1 rfl,
   (duration_conversion_exact ⟨fun _ => none, fun _ => none, "D"⟩
      { id := "a", name := "n", time_estimate := some 90000 } "W" []
      { id := "b", name := "n", duration := some 0 }).2.2.2.2.2.1 rfl⟩

/-- C8 (code bug): the transformers never raise, but graceful degradation
fails in the B-to-A direction.  `motionISOToClickUpTimestamp` has no
`isNaN` guard, so an unparseable Motion due-date string (`parseISO = none`
models `new Date(s).getTime() = NaN`) puts `NaN` into the payload's
`due_date` field — the field is present with an invalid value, not
omitted, contradicting the helper's own doc comment ("Returns null if the
input isoString is null or invalid") and the spec.  By contrast, the
A-to-B direction does omit an unparseable due date, as claimed. -/
theorem unparseable_motion_due_date_yields_nan (env : DateEnv)
    (mt : MotionTask) (ct : ClickUpTask) (ws : String)
    (um : List (Int × String)) (s : String) :
    (mt.dueDate = some s → s ≠ "" → env.parseISO s = none →
        (transformMotionToClickUp env mt).due_date = some JsNumOrNull.jnan)
      ∧ (ct.due_date = some s → parseIntJS s = none →
        (transformClickUpToMotion env ct ws um).dueDate = none) := by
  constructor
  · intro hdd hne hparse
    rw [transformMotionToClickUp_eq]
    simp [motionISOToClickUpTimestamp, hdd, hne, hparse]
  · intro hdd hparse
    rw [transformClickUpToMotion_eq]
    by_cases he : s = "" <;>
      simp [clickUpDateToMotionISO, hdd, hparse, he]

/-- Witness for C8: the failing input `dueDate = "not-a-date"` evaluated
concretely — the update payload carries `NaN`, not an omitted field. -/
theorem unparseable_motion_due_date_yields_nan_witness :
    (transformMotionToClickUp ⟨fun _ => none, fun _ => none, "D"⟩
        { id := "b1", name := "x", dueDate := some "not-a-date" }).due_date
      = some JsNumOrNull.jnan :=
  (unparseable_motion_due_date_yields_nan ⟨fun _ => none, fun _ => none, "D"⟩
      { id := "b1", name := "x", dueDate := some "not-a-date" }
      { id := "a1", name := "x" } "W" [] "not-a-date").1
    rfl (by decide) rfl

/-- C9 counterexample: `toCreationPayload` is not independent of ambient
wall-clock state.  The same ClickUp task, workspace and crosswalk,
transformed under two environments that differ only in the current date
(`new Date()` read inside the function), yield different payloads: the
`autoScheduled.startDate` is the current date. -/
theorem creation_payload_depends_on_wall_clock :
    transformClickUpToMotion ⟨fun _ => none, fun _ => none, "2024-05-01"⟩
        { id := "a1", name := "Draft spec" } "W1" []
      ≠ transformClickUpToMotion ⟨fun _ => none, fun _ => none, "2024-05-02"⟩
        { id := "a1", name := "Draft spec" } "W1" [] := by
  decide

/-- C9 amended: `toUpdatePayload` is pure and wall-clock independent (its
output depends only on the B-object and the date-parsing function), and
`toCreationPayload` is deterministic given the current date, depending on
the wall clock only through the auto-scheduling block: under equal date
libraries, two evaluations agree on every field except `autoScheduled`. -/
theorem transformers_deterministic_except_autoschedule
    (e₁ e₂ : DateEnv) (mt : MotionTask) (ct : ClickUpTask) (ws : String)
    (um : List (Int × String)) :
    (e₁.parseISO = e₂.parseISO →
        transformMotionToClickUp e₁ mt = transformMotionToClickUp e₂ mt)
      ∧ (e₁.toISO = e₂.toISO →
        eraseAutoScheduled (transformClickUpToMotion e₁ ct ws um)
          = eraseAutoScheduled (transformClickUpToMotion e₂ ct ws um)) := by
  constructor
  · intro h
    rw [transformMotionToClickUp_eq, transformMotionToClickUp_eq,
      motionISOToClickUpTimestamp_congr h]
  · intro h
    rw [transformClickUpToMotion_eq, transformClickUpToMotion_eq]
    simp [eraseAutoScheduled, clickUpDateToMotionISO_congr h]

/-- Witness for C9's amended claim: two environments with the same date
library but different current dates produce update payloads that are
identical and creation payloads that agree outside `autoScheduled`. -/
theorem transformers_deterministic_except_autoschedule_witness :
    (transformMotionToClickUp ⟨fun _ => none, fun _ => none, "2024-05-01"⟩
          { id := "b1", name := "x" }
        = transformMotionToClickUp ⟨fun _ => none, fun _ => none, "2024-05-02"⟩
          { id := "b1", name := "x" })
      ∧ (eraseAutoScheduled
          (transformClickUpToMotion ⟨fun _ => none, fun _ => none, "2024-05-01"⟩
            { id := "a1", name := "x" } "W1" [])
        = eraseAutoScheduled
          (transformClickUpToMotion ⟨fun _ => none, fun _ => none, "2024-05-02"⟩
            { id := "a1", name := "x" } "W1" [])) :=
  ⟨(transformers_deterministic_except_autoschedule
      ⟨fun _ => none, fun _ => none, "2024-05-01"⟩
      ⟨fun _ => none, fun _ => none, "2024-05-02"⟩
      { id := "b1", name := "x" } { id := "a1", name := "x" } "W1" []).1 rfl,
   (transformers_deterministic_except_autoschedule
      ⟨fun _ => none, fun _ => none, "2024-05-01"⟩
      ⟨fun _ => none, fun _ => none, "2024-05-02"⟩
      { id := "b1", name := "x" } { id := "a1", name := "x" } "W1" []).2 rfl⟩

/-- A linked changed Motion task always yields its update write in the
B-to-A loop (helper for C10). -/
lemma processMotionTasks_mem_update (env : PairEnv) (dateEnv : DateEnv)
    (store : LinkStore) (mots : List MotionTask) (mt : MotionTask)
    (link : TaskLink) (hmem : mt ∈ mots)
    (hlink : getTaskLinkByMotionId store mt.id = some link)
    (hupd : env.updateOk mt.id = true) :
    Write.updateClickUp link.clickup_task_id (transformMotionToClickUp dateEnv mt)
      ∈ processMotionTasks env dateEnv store mots := by
  induction mots with
  | nil => cases hmem
  | cons hd tl ih =>
    rcases List.mem_cons.mp hmem with rfl | hmem'
    · simp [processMotionTasks, hlink, keyCount_pos, hupd]
    · have htail := ih hmem'
      cases hl : getTaskLinkByMotionId store hd.id with
      | none => simpa [processMotionTasks, hl] using htail
      | some l' =>
        by_cases hu : env.updateOk hd.id = true <;>
          simp [processMotionTasks, hl, keyCount_pos, hu, htail]

/-- C10: the update payload always contains at least the due-date key, so
it is never the empty object; consequently the "no update needed" branch
of the B-to-A loop is unreachable, and every changed B-object that has a
Link triggers an update write to its linked A-object (whenever the remote
update call itself does not raise). -/
theorem update_payload_never_empty (dateEnv : DateEnv) (mt : MotionTask) :
    ((transformMotionToClickUp dateEnv mt).due_date).isSome = true
      ∧ (transformMotionToClickUp dateEnv mt).keyCount > 0
      ∧ (∀ (env : PairEnv) (store : LinkStore) (mots : List MotionTask)
          (link : TaskLink), mt ∈ mots →
          getTaskLinkByMotionId store mt.id = some link →
          env.updateOk mt.id = true →
          Write.updateClickUp link.clickup_task_id
              (transformMotionToClickUp dateEnv mt)
            ∈ processMotionTasks env dateEnv store mots) :=
  ⟨due_date_isSome dateEnv mt, keyCount_pos dateEnv mt,
   fun env store mots link hmem hlink hupd =>
     processMotionTasks_mem_update env dateEnv store mots mt link hmem hlink hupd⟩

/-- Witness for C10: a concrete linked changed Motion task produces an
update write in the loop's output. -/
theorem update_payload_never_empty_witness :
    Write.updateClickUp "a9"
        (transformMotionToClickUp ⟨fun _ => none, fun _ => none, "D"⟩
          { id := "b9", name := "x", completed := true })
      ∈ processMotionTasks
          ⟨fun _ => .ok ([], []), fun _ => none, fun _ => true, fun _ => true⟩
          ⟨fun _ => none, fun _ => none, "D"⟩
          [{ clickup_task_id := "a9", motion_task_id := "b9" }]
          [{ id := "b9", name := "x", completed := true }] :=
  (update_payload_never_empty ⟨fun _ => none, fun _ => none, "D"⟩
      { id := "b9", name := "x", completed := true }).2.2
    ⟨fun _ => .ok ([], []), fun _ => none, fun _ => true, fun _ => true⟩
    [{ clickup_task_id := "a9", motion_task_id := "b9" }]
    [{ id := "b9", name := "x", completed := true }]
    { clickup_task_id := "a9", motion_task_id := "b9" }
    (by decide) (by decide) rfl

/-! ## Pass completion, cursor commitment, isolation (C1, C3, C4) -/

/-- Writes of a pairing pass (empty when the pass aborted). -/
def pairWrites : Except Unit (LinkStore × List Write) → List Write
  | .ok r => r.2
  | .error _ => []

/-- Link store after a pairing pass (unchanged when the pass aborted). -/
def pairStoreAfter (store : LinkStore) :
    Except Unit (LinkStore × List Write) → LinkStore
  | .ok r => r.1
  | .error _ => store

/-- A pairing pass completes exactly when its fetch step succeeds: every
other failure is caught inside the per-object loops. -/
lemma processSyncPair_isOk (env : PairEnv) (dateEnv : DateEnv)
    (userMap : List (Int × String)) (ws ls : String) (store : LinkStore) :
    isOk (processSyncPair env dateEnv userMap ws ls store)
      = isOk (env.fetch ls) := by
  unfold processSyncPair
  cases h : env.fetch ls with
  | error e => rfl
  | ok p => cases p with | mk a b => rfl

/-- Cursor lookup on a freshly consed entry. -/
lemma lookupCursor_cons (j : Nat) (x : Option String)
    (cs : List (Nat × Option String)) (i : Nat) :
    lookupCursor ((j, x) :: cs) i
      = if j = i then some x else lookupCursor cs i := by
  by_cases h : j = i
  · simp [lookupCursor, List.find?, h]
  · simp [lookupCursor, List.find?, h, show (j == i) = false from by simp [h]]

/-- Every mapping in the run receives exactly one cursor entry, in order:
no pairing is skipped and the run as a whole always completes. -/
lemma runSync_cursors_ids (envs : Nat → PairEnv) (dateEnv : DateEnv)
    (userMap : List (Int × String)) (startTimes : Nat → String) :
    ∀ (mappings : List SyncMapping) (store : LinkStore),
      (runSync envs dateEnv userMap startTimes store mappings).cursors.map Prod.fst
        = mappings.map SyncMapping.id := by
  intro mappings
  induction mappings with
  | nil => intro store; rfl
  | cons hd tl ih =>
    intro store
    simp only [runSync]
    cases hps : processSyncPair (envs hd.id) dateEnv userMap
        hd.motion_workspace_id (lastSyncOf hd) store with
    | ok p => cases p with | mk s' w => simp [ih s']
    | error e => simp [ih store]

/-- The cursor a mapping ends the run with: the start-of-pass wall-clock
time if and only if its own fetch succeeded (equivalently, its pass
completed), and the prior stored value otherwise — independent of the
store state and of every other pairing. -/
lemma runSync_cursor_eq (envs : Nat → PairEnv) (dateEnv : DateEnv)
    (userMap : List (Int × String)) (startTimes : Nat → String)
    (mappings : List SyncMapping) (m : SyncMapping)
    (hnd : (mappings.map SyncMapping.id).Nodup) (hm : m ∈ mappings) :
    ∀ store : LinkStore,
      lookupCursor (runSync envs dateEnv userMap startTimes store mappings).cursors m.id
        = some (if isOk ((envs m.id).fetch (lastSyncOf m))
                then some (startTimes m.id) else m.last_sync_timestamp) := by
  induction mappings with
  | nil => cases hm
  | cons hd tl ih =>
    intro store
    rcases List.mem_cons.mp hm with rfl | hm'
    · simp only [runSync]
      cases hps : processSyncPair (envs m.id) dateEnv userMap
          m.motion_workspace_id (lastSyncOf m) store with
      | ok p =>
        have hok : isOk ((envs m.id).fetch (lastSyncOf m)) = true := by
          rw [← processSyncPair_isOk (envs m.id) dateEnv userMap
            m.motion_workspace_id (lastSyncOf m) store, hps]
          rfl
        cases p with | mk s' w => simp [lookupCursor_cons, hok]
      | error e =>
        have hok : isOk ((envs m.id).fetch (lastSyncOf m)) = false := by
          rw [← processSyncPair_isOk (envs m.id) dateEnv userMap
            m.motion_workspace_id (lastSyncOf m) store, hps]
          rfl
        simp [lookupCursor_cons, hok]
    · have hne : hd.id ≠ m.id := by
        intro h
        have h1 : m.id ∈ tl.map SyncMapping.id := List.mem_map_of_mem _ hm'
        have h2 := (List.nodup_cons.mp hnd).1
        rw [h] at h2
        exact h2 h1
      have hndtl := (List.nodup_cons.mp hnd).2
      simp only [runSync]
      cases hps : processSyncPair (envs hd.id) dateEnv userMap
          hd.motion_workspace_id (lastSyncOf hd) store with
      | ok p =>
        cases p with | mk s' w =>
          simp [lookupCursor_cons, hne, ih hndtl hm' s']
      | error e =>
        simp [lookupCursor_cons, hne, ih hndtl hm' store]

/-- C1: for every pairing processed in a run, the pairing's cursor is
committed if and only if that pairing's reconciliation pass completes
without an unrecovered exception (which, per the first conjunct, happens
exactly when the fetch step succeeds — every per-object failure is
caught), and the value committed is the wall-clock time captured at the
start of that pairing's pass (`startTimes m.id`, the model of
`currentSyncStartTimeISO = new Date().toISOString()`); a failure during
the changed-object fetch step leaves the pairing's stored cursor
unchanged. -/
theorem cursor_commit_iff_pass_completes (envs : Nat → PairEnv)
    (dateEnv : DateEnv) (userMap : List (Int × String))
    (startTimes : Nat → String) (store : LinkStore)
    (mappings : List SyncMapping) (m : SyncMapping)
    (hnd : (mappings.map SyncMapping.id).Nodup) (hm : m ∈ mappings) :
    (∀ s : LinkStore,
        isOk (processSyncPair (envs m.id) dateEnv userMap
          m.motion_workspace_id (lastSyncOf m) s)
          = isOk ((envs m.id).fetch (lastSyncOf m)))
      ∧ lookupCursor
          (runSync envs dateEnv userMap startTimes store mappings).cursors m.id
        = some (if isOk ((envs m.id).fetch (lastSyncOf m))
                then some (startTimes m.id) else m.last_sync_timestamp) :=
  ⟨fun s => processSyncPair_isOk (envs m.id) dateEnv userMap
      m.motion_workspace_id (lastSyncOf m) s,
   runSync_cursor_eq envs dateEnv userMap startTimes mappings m hnd hm store⟩

/-- Witness for C1: a run over two concrete pairings, one whose fetch
succeeds (cursor committed to the captured start time) and one whose
fetch raises (stored cursor left unchanged). -/
theorem cursor_commit_iff_pass_completes_witness :
    lookupCursor (runSync
        (fun i => if i = 1
          then ⟨fun _ => .ok ([], []), fun _ => none, fun _ => true, fun _ => true⟩
          else ⟨fun _ => .error (), fun _ => none, fun _ => true, fun _ => true⟩)
        ⟨fun _ => none, fun _ => none, "D"⟩ [] (fun i => "T" ++ toString i) []
        [{ id := 1, clickup_list_id := "L1", motion_workspace_id := "W1" },
         { id := 2, clickup_list_id := "L2", motion_workspace_id := "W2",
           last_sync_timestamp := some "2024-01-01T00:00:00Z" }]).cursors 1
      = some (some "T1")
    ∧ lookupCursor (runSync
        (fun i => if i = 1
          then ⟨fun _ => .ok ([], []), fun _ => none, fun _ => true, fun _ => true⟩
          else ⟨fun _ => .error (), fun _ => none, fun _ => true, fun _ => true⟩)
        ⟨fun _ => none, fun _ => none, "D"⟩ [] (fun i => "T" ++ toString i) []
        [{ id := 1, clickup_list_id := "L1", motion_workspace_id := "W1" },
         { id := 2, clickup_list_id := "L2", motion_workspace_id := "W2",
           last_sync_timestamp := some "2024-01-01T00:00:00Z" }]).cursors 2
      = some (some "2024-01-01T00:00:00Z") := by
  constructor
  · have h := (cursor_commit_iff_pass_completes
      (fun i => if i = 1
        then ⟨fun _ => .ok ([], []), fun _ => none, fun _ => true, fun _ => true⟩
        else ⟨fun _ => .error (), fun _ => none, fun _ => true, fun _ => true⟩)
      ⟨fun _ => none, fun _ => none, "D"⟩ [] (fun i => "T" ++ toString i) []
      [{ id := 1, clickup_list_id := "L1", motion_workspace_id := "W1" },
       { id := 2, clickup_list_id := "L2", motion_workspace_id := "W2",
         last_sync_timestamp := some "2024-01-01T00:00:00Z" }]
      { id := 1, clickup_list_id := "L1", motion_workspace_id := "W1" }
      (by decide) (by decide)).2
    rw [h]
    decide
  · have h := (cursor_commit_iff_pass_completes
      (fun i => if i = 1
        then ⟨fun _ => .ok ([], []), fun _ => none, fun _ => true, fun _ => true⟩
        else ⟨fun _ => .error (), fun _ => none, fun _ => true, fun _ => true⟩)
      ⟨fun _ => none, fun _ => none, "D"⟩ [] (fun i => "T" ++ toString i) []
      [{ id := 1, clickup_list_id := "L1", motion_workspace_id := "W1" },
       { id := 2, clickup_list_id := "L2", motion_workspace_id := "W2",
         last_sync_timestamp := some "2024-01-01T00:00:00Z" }]
      { id := 2, clickup_list_id := "L2", motion_workspace_id := "W2",
        last_sync_timestamp := some "2024-01-01T00:00:00Z" }
      (by decide) (by decide)).2
    rw [h]
    decide

/-- C4: pairing independence.  A mapping's final cursor depends only on
its own pairing's environment and start time: changing the outcomes of
every other pairing (including making them all fail) does not change it.
Moreover the run always yields a cursor entry for every mapping, in
order — an exception in one pairing never prevents the others from
running to completion, and never fails the run. -/
theorem pairing_failure_isolation (envs₁ envs₂ : Nat → PairEnv)
    (dateEnv : DateEnv) (userMap : List (Int × String))
    (startTimes₁ startTimes₂ : Nat → String) (store : LinkStore)
    (mappings : List SyncMapping) (m : SyncMapping)
    (hnd : (mappings.map SyncMapping.id).Nodup) (hm : m ∈ mappings)
    (henv : envs₁ m.id = envs₂ m.id)
    (hst : startTimes₁ m.id = startTimes₂ m.id) :
    lookupCursor
        (runSync envs₁ dateEnv userMap startTimes₁ store mappings).cursors m.id
      = lookupCursor
        (runSync envs₂ dateEnv userMap startTimes₂ store mappings).cursors m.id
    ∧ (runSync envs₁ dateEnv userMap startTimes₁ store mappings).cursors.map Prod.fst
      = mappings.map SyncMapping.id := by
  constructor
  · rw [runSync_cursor_eq envs₁ dateEnv userMap startTimes₁ mappings m hnd hm store,
      runSync_cursor_eq envs₂ dateEnv userMap startTimes₂ mappings m hnd hm store,
      henv, hst]
  · exact runSync_cursors_ids envs₁ dateEnv userMap startTimes₁ mappings store

/-- Witness for C4: the first pairing's committed cursor is the same
whether the second pairing succeeds or raises. -/
theorem pairing_failure_isolation_witness :
    lookupCursor (runSync
        (fun _ => ⟨fun _ => .ok ([], []), fun _ => none, fun _ => true, fun _ => true⟩)
        ⟨fun _ => none, fun _ => none, "D"⟩ [] (fun _ => "T") []
        [{ id := 1, clickup_list_id := "L1", motion_workspace_id := "W1" },
         { id := 2, clickup_list_id := "L2", motion_workspace_id := "W2" }]).cursors 1
      = lookupCursor (runSync
        (fun i => if i = 1
          then ⟨fun _ => .ok ([], []), fun _ => none, fun _ => true, fun _ => true⟩
          else ⟨fun _ => .error (), fun _ => none, fun _ => true, fun _ => true⟩)
        ⟨fun _ => none, fun _ => none, "D"⟩ [] (fun _ => "T") []
        [{ id := 1, clickup_list_id := "L1", motion_workspace_id := "W1" },
         { id := 2, clickup_list_id := "L2", motion_workspace_id := "W2" }]).cursors 1 :=
  (pairing_failure_isolation
    (fun _ => ⟨fun _ => .ok ([], []), fun _ => none, fun _ => true, fun _ => true⟩)
    (fun i => if i = 1
      then ⟨fun _ => .ok ([], []), fun _ => none, fun _ => true, fun _ => true⟩
      else ⟨fun _ => .error (), fun _ => none, fun _ => true, fun _ => true⟩)
    ⟨fun _ => none, fun _ => none, "D"⟩ [] (fun _ => "T") (fun _ => "T") []
    [{ id := 1, clickup_list_id := "L1", motion_workspace_id := "W1" },
     { id := 2, clickup_list_id := "L2", motion_workspace_id := "W2" }]
    { id := 1, clickup_list_id := "L1", motion_workspace_id := "W1" }
    (by decide) (by decide) rfl rfl).1

/-- Consing a link for a different ClickUp id does not change a lookup. -/
lemma getTaskLinkByClickupId_cons_ne (l : TaskLink) (store : LinkStore)
    (x : String) (h : l.clickup_task_id ≠ x) :
    getTaskLinkByClickupId (l :: store) x = getTaskLinkByClickupId store x := by
  simp [getTaskLinkByClickupId, List.find?,
    show (l.clickup_task_id == x) = false from by simp [h]]

/-- The A-side loop only inserts links for the ids of its own task list:
a lookup of any other id is unchanged. -/
lemma processClickUpTasks_lookup_of_not_mem (env : PairEnv)
    (dateEnv : DateEnv) (userMap : List (Int × String)) (ws : String) :
    ∀ (tasks : List ClickUpTask) (store : LinkStore) (x : String),
      x ∉ tasks.map ClickUpTask.id →
      getTaskLinkByClickupId
          (processClickUpTasks env dateEnv userMap ws store tasks).1 x
        = getTaskLinkByClickupId store x := by
  intro tasks
  induction tasks with
  | nil => intro store x _; rfl
  | cons hd tl ih =>
    intro store x hx
    have hne : hd.id ≠ x := by
      intro h
      exact hx (by simp [← h])
    have hxtl : x ∉ tl.map ClickUpTask.id := by
      intro h
      exact hx (List.mem_cons_of_mem _ h)
    cases hl : getTaskLinkByClickupId store hd.id with
    | some l => simpa [processClickUpTasks, hl] using ih store x hxtl
    | none =>
      cases hcr : env.createResult hd.id with
      | none => simpa [processClickUpTasks, hl, hcr] using ih store x hxtl
      | some mt =>
        by_cases hins : env.linkInsertOk hd.id
        · have h12 := (ih (createTaskLink store hd.id mt.id) x hxtl).trans
            (getTaskLinkByClickupId_cons_ne
              { clickup_task_id := hd.id, motion_task_id := mt.id } store x hne)
          simpa [processClickUpTasks, hl, hcr, hins] using h12
        · simpa [processClickUpTasks, hl, hcr, hins] using ih store x hxtl

/-- In the A-side loop, an unlinked task whose remote create succeeds gets
its creation write recorded and (when the insert also succeeds) its link
row stored — regardless of the outcomes for every other task in the list. -/
lemma processClickUpTasks_processes (env : PairEnv) (dateEnv : DateEnv)
    (userMap : List (Int × String)) (ws : String) :
    ∀ (tasks : List ClickUpTask) (store : LinkStore) (t : ClickUpTask)
      (mt : MotionTask),
      (tasks.map ClickUpTask.id).Nodup → t ∈ tasks →
      getTaskLinkByClickupId store t.id = none →
      env.createResult t.id = some mt →
      (Write.createMotion t.id (transformClickUpToMotion dateEnv t ws userMap) mt
          ∈ (processClickUpTasks env dateEnv userMap ws store tasks).2)
        ∧ (env.linkInsertOk t.id = true →
          getTaskLinkByClickupId
              (processClickUpTasks env dateEnv userMap ws store tasks).1 t.id
            = some { clickup_task_id := t.id, motion_task_id := mt.id }) := by
  intro tasks
  induction tasks with
  | nil => intro store t mt _ hmem; cases hmem
  | cons hd tl ih =>
    intro store t mt hnd hmem hstore hcr
    have hndtl : (tl.map ClickUpTask.id).Nodup := (List.nodup_cons.mp hnd).2
    have hhd : hd.id ∉ tl.map ClickUpTask.id := (List.nodup_cons.mp hnd).1
    rcases List.mem_cons.mp hmem with rfl | hmem'
    · -- the task at the head of the list
      by_cases hins : env.linkInsertOk t.id
      · constructor
        · simp [processClickUpTasks, hstore, hcr, hins]
        · intro _
          have hlook := processClickUpTasks_lookup_of_not_mem env dateEnv
            userMap ws tl (createTaskLink store t.id mt.id) t.id hhd
          simp only [processClickUpTasks, hstore, hcr, hins, if_pos]
          rw [hlook]
          simp [createTaskLink, getTaskLinkByClickupId, List.find?]
      · constructor
        · simp [processClickUpTasks, hstore, hcr, hins]
        · intro habs
          exact absurd habs hins
    · -- the task is in the tail
      have hne : hd.id ≠ t.id := by
        intro h
        exact hhd (h ▸ List.mem_map_of_mem _ hmem')
      cases hl : getTaskLinkByClickupId store hd.id with
      | some l =>
        have := ih store t mt hndtl hmem' hstore hcr
        simpa [processClickUpTasks, hl] using this
      | none =>
        cases hcrh : env.createResult hd.id with
        | none =>
          have := ih store t mt hndtl hmem' hstore hcr
          simpa [processClickUpTasks, hl, hcrh] using this
        | some mth =>
          by_cases hins : env.linkInsertOk hd.id
          · have hstore' : getTaskLinkByClickupId
                (createTaskLink store hd.id mth.id) t.id = none := by
              rw [createTaskLink, getTaskLinkByClickupId_cons_ne _ store t.id hne]
              exact hstore
            have := ih (createTaskLink store hd.id mth.id) t mt hndtl hmem'
              hstore' hcr
            constructor
            · simp [processClickUpTasks, hl, hcrh, hins]
              exact Or.inr this.1
            · intro hinst
              simpa [processClickUpTasks, hl, hcrh, hins] using this.2 hinst
          · have := ih store t mt hndtl hmem' hstore hcr
            constructor
            · simp [processClickUpTasks, hl, hcrh, hins]
              exact Or.inr this.1
            · intro hinst
              simpa [processClickUpTasks, hl, hcrh, hins] using this.2 hinst

/-- C3: per-object failure isolation inside a pairing.  First conjunct: a
pairing pass whose fetch step succeeds always completes (the cursor is
then committed, third conjunct, stated on the orchestrator).  Second
conjunct: an unlinked changed A-object whose create succeeds is created
remotely and (if the insert succeeds) linked, for arbitrary outcomes —
including failures — of every other object in the list, so one object's
creation or link failure never prevents the others from being
processed. -/
theorem per_object_failure_isolation (env : PairEnv) (dateEnv : DateEnv)
    (userMap : List (Int × String)) (ws ls : String) (store : LinkStore)
    (tasks : List ClickUpTask) (mots : List MotionTask) (t : ClickUpTask)
    (mt : MotionTask) (envs : Nat → PairEnv) (startTimes : Nat → String)
    (storeR : LinkStore) (mappings : List SyncMapping) (m : SyncMapping) :
    (isOk (env.fetch ls) = true →
        isOk (processSyncPair env dateEnv userMap ws ls store) = true)
      ∧ (env.fetch ls = .ok (tasks, mots) →
        (tasks.map ClickUpTask.id).Nodup → t ∈ tasks →
        getTaskLinkByClickupId store t.id = none →
        env.createResult t.id = some mt →
        Write.createMotion t.id (transformClickUpToMotion dateEnv t ws userMap) mt
            ∈ pairWrites (processSyncPair env dateEnv userMap ws ls store)
          ∧ (env.linkInsertOk t.id = true →
            getTaskLinkByClickupId
                (pairStoreAfter store (processSyncPair env dateEnv userMap ws ls store))
                t.id
              = some { clickup_task_id := t.id, motion_task_id := mt.id }))
      ∧ ((mappings.map SyncMapping.id).Nodup → m ∈ mappings →
        isOk ((envs m.id).fetch (lastSyncOf m)) = true →
        lookupCursor
            (runSync envs dateEnv userMap startTimes storeR mappings).cursors m.id
          = some (some (startTimes m.id))) := by
  refine ⟨?_, ?_, ?_⟩
  · intro h
    rw [processSyncPair_isOk]
    exact h
  · intro hf hnd hmem hstore hcr
    have hp := processClickUpTasks_processes env dateEnv userMap ws tasks
      store t mt hnd hmem hstore hcr
    constructor
    · simp only [processSyncPair, hf, pairWrites]
      exact List.mem_append_left _ hp.1
    · intro hins
      simp only [processSyncPair, hf, pairStoreAfter]
      exact hp.2 hins
  · intro hnd hmem hok
    rw [runSync_cursor_eq envs dateEnv userMap startTimes mappings m hnd hmem
      storeR, hok]
    simp

/-- Witness for C3: the spec's five-object scenario — the create for the
third task raises, yet the fourth task is still created and linked, and
the pairing's cursor is still committed. -/
theorem per_object_failure_isolation_witness :
    (Write.createMotion "a4"
        (transformClickUpToMotion ⟨fun _ => none, fun _ => none, "D"⟩
          { id := "a4", name := "t4" } "W1" [])
        { id := "m4", name := "t4" }
      ∈ pairWrites (processSyncPair
          ⟨fun _ => .ok ([{ id := "a1", name := "t1" }, { id := "a2", name := "t2" },
              { id := "a3", name := "t3" }, { id := "a4", name := "t4" },
              { id := "a5", name := "t5" }], []),
            fun cid => if cid = "a3" then none
              else some { id := "m" ++ (cid.drop 1), name := "t" ++ (cid.drop 1) },
            fun _ => true, fun _ => true⟩
          ⟨fun _ => none, fun _ => none, "D"⟩ [] "W1" "0" []))
    ∧ lookupCursor (runSync
        (fun _ => ⟨fun _ => .ok ([{ id := "a1", name := "t1" }], []),
          fun cid => some { id := "m" ++ (cid.drop 1), name := "x" },
          fun _ => true, fun _ => true⟩)
        ⟨fun _ => none, fun _ => none, "D"⟩ [] (fun _ => "T9") []
        [{ id := 7, clickup_list_id := "L1", motion_workspace_id := "W1" }]).cursors 7
      = some (some "T9") := by
  constructor
  · exact ((per_object_failure_isolation
      ⟨fun _ => .ok ([{ id := "a1", name := "t1" }, { id := "a2", name := "t2" },
          { id := "a3", name := "t3" }, { id := "a4", name := "t4" },
          { id := "a5", name := "t5" }], []),
        fun cid => if cid = "a3" then none
          else some { id := "m" ++ (cid.drop 1), name := "t" ++ (cid.drop 1) },
        fun _ => true, fun _ => true⟩
      ⟨fun _ => none, fun _ => none, "D"⟩ [] "W1" "0" []
      [{ id := "a1", name := "t1" }, { id := "a2", name := "t2" },
        { id := "a3", name := "t3" }, { id := "a4", name := "t4" },
        { id := "a5", name := "t5" }] [] { id := "a4", name := "t4" }
      { id := "m4", name := "t4" } (fun _ => ⟨fun _ => .ok ([], []),
        fun _ => none, fun _ => true, fun _ => true⟩) (fun _ => "T")
      [] [] { id := 0, clickup_list_id := "", motion_workspace_id := "" }).2.1
      rfl (by decide) (by decide) rfl rfl).1
  · exact (per_object_failure_isolation
      ⟨fun _ => .ok ([], []), fun _ => none, fun _ => true, fun _ => true⟩
      ⟨fun _ => none, fun _ => none, "D"⟩ [] "W1" "0" [] [] []
      { id := "x", name := "x" } { id := "y", name := "y" }
      (fun _ => ⟨fun _ => .ok ([{ id := "a1", name := "t1" }], []),
        fun cid => some { id := "m" ++ (cid.drop 1), name := "x" },
        fun _ => true, fun _ => true⟩)
      (fun _ => "T9") []
      [{ id := 7, clickup_list_id := "L1", motion_workspace_id := "W1" }]
      { id := 7, clickup_list_id := "L1", motion_workspace_id := "W1" }).2.2
      (by decide) (by decide) rfl

/-! ## Idempotence across two runs (C2) -/

/-- When every fetched A-task is already linked, the A-side loop performs
no remote creation and no link insert at all: the store is returned
unchanged and the creation-write list is empty. -/
lemma processClickUpTasks_all_linked (env : PairEnv) (dateEnv : DateEnv)
    (userMap : List (Int × String)) (ws : String) :
    ∀ (tasks : List ClickUpTask) (store : LinkStore),
      (∀ t ∈ tasks, (getTaskLinkByClickupId store t.id).isSome = true) →
      processClickUpTasks env dateEnv userMap ws store tasks = (store, []) := by
  intro tasks
  induction tasks with
  | nil => intro store _; rfl
  | cons hd tl ih =>
    intro store h
    have hh := h hd (List.mem_cons_self hd tl)
    cases hl : getTaskLinkByClickupId store hd.id with
    | none => rw [hl] at hh; cases hh
    | some l =>
      have := ih store (fun t ht => h t (List.mem_cons_of_mem hd ht))
      simpa [processClickUpTasks, hl] using this

/-- Every write produced by the A-side loop is a remote creation. -/
lemma processClickUpTasks_writes_isCreate (env : PairEnv) (dateEnv : DateEnv)
    (userMap : List (Int × String)) (ws : String) :
    ∀ (tasks : List ClickUpTask) (store : LinkStore) (w : Write),
      w ∈ (processClickUpTasks env dateEnv userMap ws store tasks).2 →
      w.isCreate = true := by
  intro tasks
  induction tasks with
  | nil => intro store w hw; cases hw
  | cons hd tl ih =>
    intro store w hw
    cases hl : getTaskLinkByClickupId store hd.id with
    | some l =>
      rw [show processClickUpTasks env dateEnv userMap ws store (hd :: tl)
          = processClickUpTasks env dateEnv userMap ws store tl from by
        simp [processClickUpTasks, hl]] at hw
      exact ih store w hw
    | none =>
      cases hcr : env.createResult hd.id with
      | none =>
        rw [show processClickUpTasks env dateEnv userMap ws store (hd :: tl)
            = processClickUpTasks env dateEnv userMap ws store tl from by
          simp [processClickUpTasks, hl, hcr]] at hw
        exact ih store w hw
      | some mt =>
        by_cases hins : env.linkInsertOk hd.id <;>
          · simp only [processClickUpTasks, hl, hcr, hins] at hw
            simp at hw
            rcases hw with rfl | hw'
            · rfl
            · exact ih _ w hw'

/-- Every write produced by the B-side loop is an update, and its target
is the ClickUp id of a link row present in the store. -/
lemma processMotionTasks_writes (env : PairEnv) (dateEnv : DateEnv)
    (store : LinkStore) :
    ∀ (mots : List MotionTask) (w : Write),
      w ∈ processMotionTasks env dateEnv store mots →
      w.isCreate = false
        ∧ ∃ link ∈ store, ∃ pl, w = Write.updateClickUp link.clickup_task_id pl := by
  intro mots
  induction mots with
  | nil => intro w hw; cases hw
  | cons hd tl ih =>
    intro w hw
    cases hl : getTaskLinkByMotionId store hd.id with
    | none =>
      rw [show processMotionTasks env dateEnv store (hd :: tl)
          = processMotionTasks env dateEnv store tl from by
        simp [processMotionTasks, hl]] at hw
      exact ih w hw
    | some l =>
      have hmem : l ∈ store := List.mem_of_find?_eq_some hl
      by_cases hk : (transformMotionToClickUp dateEnv hd).keyCount > 0
      · by_cases hu : env.updateOk hd.id
        · simp only [processMotionTasks, hl, hk, hu] at hw
          simp at hw
          rcases hw with rfl | hw'
          · exact ⟨rfl, l, hmem, transformMotionToClickUp dateEnv hd, rfl⟩
          · exact ih w hw'
        · simp only [processMotionTasks, hl, hk, hu] at hw
          simp at hw
          exact ih w hw
      · simp only [processMotionTasks, hl, hk] at hw
        simp at hw
        exact ih w hw

/-- Provenance of a task in the ClickUp world after the sync's writes are
applied: it descends from an original task, with its timestamp unchanged
unless some update write targeted its id. -/
lemma foldl_applyWriteA_mem (e : ObjEnv) :
    ∀ (ws : List Write) (wA : WorldA) (p : ClickUpTask × Int),
      p ∈ (ws.foldl (applyWriteA e) wA).tasks →
      ∃ q ∈ wA.tasks, p.1 = q.1
        ∧ (p.2 = q.2 ∨ ∃ pl, Write.updateClickUp p.1.id pl ∈ ws) := by
  intro ws
  induction ws with
  | nil => intro wA p hp; exact ⟨p, hp, rfl, Or.inl rfl⟩
  | cons w rest ih =>
    intro wA p hp
    rw [List.foldl_cons] at hp
    obtain ⟨q, hq, hq1, hq2⟩ := ih (applyWriteA e wA w) p hp
    cases w with
    | createMotion cid pl0 created =>
      refine ⟨q, hq, hq1, ?_⟩
      rcases hq2 with h | ⟨pl, hpl⟩
      · exact Or.inl h
      · exact Or.inr ⟨pl, List.mem_cons_of_mem _ hpl⟩
    | updateClickUp cid pl0 =>
      simp only [applyWriteA] at hq
      rw [List.mem_map] at hq
      obtain ⟨r, hr, hqr⟩ := hq
      by_cases hid : r.1.id = cid
      · rw [if_pos hid] at hqr
        refine ⟨r, hr, ?_, Or.inr ⟨pl0, ?_⟩⟩
        · rw [hq1, ← hqr]
        · have : p.1.id = cid := by rw [hq1, ← hqr]; exact hid
          rw [this]
          exact List.mem_cons_self _ _
      · rw [if_neg hid] at hqr
        refine ⟨r, hr, ?_, ?_⟩
        · rw [hq1, ← hqr]
        · rcases hq2 with h | ⟨pl, hpl⟩
          · exact Or.inl (by rw [h, ← hqr])
          · exact Or.inr ⟨pl, List.mem_cons_of_mem _ hpl⟩

/-- A link row in the store makes the lookup of its ClickUp id succeed. -/
lemma isSome_lookup_of_mem (store : LinkStore) (link : TaskLink)
    (h : link ∈ store) :
    (getTaskLinkByClickupId store link.clickup_task_id).isSome = true := by
  rw [getTaskLinkByClickupId, List.find?_isSome]
  exact ⟨link, h, by simp⟩

/-- Unfolding of a world-level run (its fetch step never raises). -/
lemma runOnceWorld_eq (e : ObjEnv) (dateEnv : DateEnv)
    (userMap : List (Int × String)) (wsId : String) (wA : WorldA)
    (wB : WorldB) (store : LinkStore) (cursor startTime : Int) :
    runOnceWorld e dateEnv userMap wsId wA wB store cursor startTime =
      { wA := ((processClickUpTasks (e.toPairEnv wA wB cursor) dateEnv userMap
            wsId store (fetchChangedA wA cursor)).2
          ++ processMotionTasks (e.toPairEnv wA wB cursor) dateEnv
            (processClickUpTasks (e.toPairEnv wA wB cursor) dateEnv userMap
              wsId store (fetchChangedA wA cursor)).1
            (fetchChangedB wB cursor)).foldl (applyWriteA e) wA
        wB := ((processClickUpTasks (e.toPairEnv wA wB cursor) dateEnv userMap
            wsId store (fetchChangedA wA cursor)).2
          ++ processMotionTasks (e.toPairEnv wA wB cursor) dateEnv
            (processClickUpTasks (e.toPairEnv wA wB cursor) dateEnv userMap
              wsId store (fetchChangedA wA cursor)).1
            (fetchChangedB wB cursor)).foldl (applyWriteB e) wB
        store := (processClickUpTasks (e.toPairEnv wA wB cursor) dateEnv userMap
          wsId store (fetchChangedA wA cursor)).1
        cursor := startTime
        writes := (processClickUpTasks (e.toPairEnv wA wB cursor) dateEnv userMap
            wsId store (fetchChangedA wA cursor)).2
          ++ processMotionTasks (e.toPairEnv wA wB cursor) dateEnv
            (processClickUpTasks (e.toPairEnv wA wB cursor) dateEnv userMap
              wsId store (fetchChangedA wA cursor)).1
            (fetchChangedB wB cursor) } := by
  rfl

/-- C2 counterexample: a two-run scenario with zero upstream changes
between the runs in which the second run nevertheless performs a remote
write.  Run 1 (cursor 0, started at time 10) observes one new ClickUp
task `a1`, creates Motion task `m1` (which the Motion system timestamps
15, inside run 1's pass) and links it.  Nothing touches either system
afterwards, yet run 2 (cursor 10) re-fetches `m1` (15 > 10), finds its
link, and — because the update payload is never empty — issues an update
write to `a1`.  So "zero additional remote writes" fails; the Link rows
do stay unchanged. -/
theorem second_run_repeats_update_write :
    ((runOnceWorld
        ⟨fun cid => if cid = "a1" then some { id := "m1", name := "Draft spec" }
            else none,
          fun _ => true, fun _ => true, fun _ => 15, fun _ => 101⟩
        ⟨fun _ => none, fun _ => none, "D"⟩ [] "W1"
        (runOnceWorld
          ⟨fun cid => if cid = "a1" then some { id := "m1", name := "Draft spec" }
              else none,
            fun _ => true, fun _ => true, fun _ => 15, fun _ => 101⟩
          ⟨fun _ => none, fun _ => none, "D"⟩ [] "W1"
          { tasks := [({ id := "a1", name := "Draft spec" }, 5)] }
          { tasks := [] } [] 0 10).wA
        (runOnceWorld
          ⟨fun cid => if cid = "a1" then some { id := "m1", name := "Draft spec" }
              else none,
            fun _ => true, fun _ => true, fun _ => 15, fun _ => 101⟩
          ⟨fun _ => none, fun _ => none, "D"⟩ [] "W1"
          { tasks := [({ id := "a1", name := "Draft spec" }, 5)] }
          { tasks := [] } [] 0 10).wB
        (runOnceWorld
          ⟨fun cid => if cid = "a1" then some { id := "m1", name := "Draft spec" }
              else none,
            fun _ => true, fun _ => true, fun _ => 15, fun _ => 101⟩
          ⟨fun _ => none, fun _ => none, "D"⟩ [] "W1"
          { tasks := [({ id := "a1", name := "Draft spec" }, 5)] }
          { tasks := [] } [] 0 10).store
        (runOnceWorld
          ⟨fun cid => if cid = "a1" then some { id := "m1", name := "Draft spec" }
              else none,
            fun _ => true, fun _ => true, fun _ => 15, fun _ => 101⟩
          ⟨fun _ => none, fun _ => none, "D"⟩ [] "W1"
          { tasks := [({ id := "a1", name := "Draft spec" }, 5)] }
          { tasks := [] } [] 0 10).cursor 100).writes
      = [Write.updateClickUp "a1"
          { due_date := some JsNumOrNull.jnull, status := none,
            time_estimate := none }])
    ∧ (runOnceWorld
        ⟨fun cid => if cid = "a1" then some { id := "m1", name := "Draft spec" }
            else none,
          fun _ => true, fun _ => true, fun _ => 15, fun _ => 101⟩
        ⟨fun _ => none, fun _ => none, "D"⟩ [] "W1"
        { tasks := [({ id := "a1", name := "Draft spec" }, 5)] }
        { tasks := [] } [] 0 10).writes
      = [Write.createMotion "a1"
          (transformClickUpToMotion ⟨fun _ => none, fun _ => none, "D"⟩
            { id := "a1", name := "Draft spec" } "W1" [])
          { id := "m1", name := "Draft spec" }] := by
  constructor
  · decide
  · decide

/-- C2 amended: a second run with no upstream changes between the runs
adds zero Link rows and performs zero remote creations — but not
necessarily zero remote writes (see the counterexample: update writes
recur for linked B-objects re-observed by the second run, e.g. those the
first run itself created).  Hypothesis: every A-side task was last
modified no later than run 1's start time `t1` (no user edits after run 1
began; the worlds evolve only by the sync's own writes).  The last
conjunct is the claim's "in particular" part: a changed A-object whose id
already has a Link triggers no remote creation and no link insert. -/
theorem second_run_adds_no_links_and_no_creations (e : ObjEnv)
    (dateEnv : DateEnv) (userMap : List (Int × String)) (wsId : String)
    (wA : WorldA) (wB : WorldB) (store : LinkStore) (c0 t1 t2 : Int)
    (hA : ∀ p ∈ wA.tasks, p.2 ≤ t1) :
    ((runOnceWorld e dateEnv userMap wsId
        (runOnceWorld e dateEnv userMap wsId wA wB store c0 t1).wA
        (runOnceWorld e dateEnv userMap wsId wA wB store c0 t1).wB
        (runOnceWorld e dateEnv userMap wsId wA wB store c0 t1).store
        (runOnceWorld e dateEnv userMap wsId wA wB store c0 t1).cursor t2).store
      = (runOnceWorld e dateEnv userMap wsId wA wB store c0 t1).store)
    ∧ (∀ w ∈ (runOnceWorld e dateEnv userMap wsId
          (runOnceWorld e dateEnv userMap wsId wA wB store c0 t1).wA
          (runOnceWorld e dateEnv userMap wsId wA wB store c0 t1).wB
          (runOnceWorld e dateEnv userMap wsId wA wB store c0 t1).store
          (runOnceWorld e dateEnv userMap wsId wA wB store c0 t1).cursor
          t2).writes,
        w.isCreate = false)
    ∧ (∀ (env' : PairEnv) (store' : LinkStore) (tasks : List ClickUpTask),
        (∀ t ∈ tasks, (getTaskLinkByClickupId store' t.id).isSome = true) →
        processClickUpTasks env' dateEnv userMap wsId store' tasks
          = (store', [])) := by
  have hcur : (runOnceWorld e dateEnv userMap wsId wA wB store c0 t1).cursor
      = t1 := by rw [runOnceWorld_eq]
  -- abbreviations for run 1's pieces
  set env1 := e.toPairEnv wA wB c0 with henv1
  set s1 := (processClickUpTasks env1 dateEnv userMap wsId store
    (fetchChangedA wA c0)).1 with hs1
  set cw1 := (processClickUpTasks env1 dateEnv userMap wsId store
    (fetchChangedA wA c0)).2 with hcw1
  set uw1 := processMotionTasks env1 dateEnv s1 (fetchChangedB wB c0) with huw1
  have hr1 : runOnceWorld e dateEnv userMap wsId wA wB store c0 t1 =
      { wA := (cw1 ++ uw1).foldl (applyWriteA e) wA
        wB := (cw1 ++ uw1).foldl (applyWriteB e) wB
        store := s1
        cursor := t1
        writes := cw1 ++ uw1 } := runOnceWorld_eq e dateEnv userMap wsId
    wA wB store c0 t1
  -- every A-task the second run fetches is already linked in run 1's store
  have hkey : ∀ t ∈ fetchChangedA ((cw1 ++ uw1).foldl (applyWriteA e) wA) t1,
      (getTaskLinkByClickupId s1 t.id).isSome = true := by
    intro t ht
    rw [fetchChangedA, List.mem_map] at ht
    obtain ⟨p, hpf, hpt⟩ := ht
    rw [List.mem_filter] at hpf
    obtain ⟨hpmem, hplt⟩ := hpf
    obtain ⟨q, hq, hq1, hq2⟩ := foldl_applyWriteA_mem e (cw1 ++ uw1) wA p hpmem
    rcases hq2 with hts | ⟨pl, hpl⟩
    · exfalso
      have h1 : p.2 ≤ t1 := hts ▸ hA q hq
      have h2 : t1 < p.2 := by simpa using hplt
      omega
    · rw [List.mem_append] at hpl
      rcases hpl with hcw | huw
      · exfalso
        have := processClickUpTasks_writes_isCreate env1 dateEnv userMap wsId
          (fetchChangedA wA c0) store _ hcw
        simp [Write.isCreate] at this
      · obtain ⟨_, link, hlmem, pl', heq⟩ :=
          processMotionTasks_writes env1 dateEnv s1 (fetchChangedB wB c0) _ huw
        have hid : link.clickup_task_id = p.1.id := by
          injection heq with h1 h2
          exact h1.symm
        have := isSome_lookup_of_mem s1 link hlmem
        rw [hid] at this
        rw [← hpt]
        exact this
  -- run 2's A-side loop does nothing
  have hskip := processClickUpTasks_all_linked
    (e.toPairEnv ((cw1 ++ uw1).foldl (applyWriteA e) wA)
      ((cw1 ++ uw1).foldl (applyWriteB e) wB) t1)
    dateEnv userMap wsId
    (fetchChangedA ((cw1 ++ uw1).foldl (applyWriteA e) wA) t1) s1 hkey
  refine ⟨?_, ?_, ?_⟩
  · rw [hr1]
    rw [runOnceWorld_eq]
    simp only [hskip]
  · intro w hw
    rw [hr1] at hw
    rw [runOnceWorld_eq] at hw
    simp only [hskip, List.nil_append] at hw
    exact (processMotionTasks_writes _ dateEnv s1 _ w hw).1
  · intro env' store' tasks h
    exact processClickUpTasks_all_linked env' dateEnv userMap wsId tasks store' h

/-- Witness for C2's amended claim: the counterexample scenario satisfies
the hypothesis (the only A-task was modified at time 5 ≤ 10), and indeed
the second run adds no Link rows and performs no creation. -/
theorem second_run_adds_no_links_and_no_creations_witness :
    (runOnceWorld
        ⟨fun cid => if cid = "a2" then some { id := "m2", name := "n" }
            else none,
          fun _ => true, fun _ => true, fun _ => 16, fun _ => 102⟩
        ⟨fun _ => none, fun _ => none, "D"⟩ [] "W2"
        (runOnceWorld
          ⟨fun cid => if cid = "a2" then some { id := "m2", name := "n" }
              else none,
            fun _ => true, fun _ => true, fun _ => 16, fun _ => 102⟩
          ⟨fun _ => none, fun _ => none, "D"⟩ [] "W2"
          { tasks := [({ id := "a2", name := "n" }, 5)] }
          { tasks := [] } [] 0 10).wA
        (runOnceWorld
          ⟨fun cid => if cid = "a2" then some { id := "m2", name := "n" }
              else none,
            fun _ => true, fun _ => true, fun _ => 16, fun _ => 102⟩
          ⟨fun _ => none, fun _ => none, "D"⟩ [] "W2"
          { tasks := [({ id := "a2", name := "n" }, 5)] }
          { tasks := [] } [] 0 10).wB
        (runOnceWorld
          ⟨fun cid => if cid = "a2" then some { id := "m2", name := "n" }
              else none,
            fun _ => true, fun _ => true, fun _ => 16, fun _ => 102⟩
          ⟨fun _ => none, fun _ => none, "D"⟩ [] "W2"
          { tasks := [({ id := "a2", name := "n" }, 5)] }
          { tasks := [] } [] 0 10).store
        (runOnceWorld
          ⟨fun cid => if cid = "a2" then some { id := "m2", name := "n" }
              else none,
            fun _ => true, fun _ => true, fun _ => 16, fun _ => 102⟩
          ⟨fun _ => none, fun _ => none, "D"⟩ [] "W2"
          { tasks := [({ id := "a2", name := "n" }, 5)] }
          { tasks := [] } [] 0 10).cursor 100).store
      = (runOnceWorld
          ⟨fun cid => if cid = "a2" then some { id := "m2", name := "n" }
              else none,
            fun _ => true, fun _ => true, fun _ => 16, fun _ => 102⟩
          ⟨fun _ => none, fun _ => none, "D"⟩ [] "W2"
          { tasks := [({ id := "a2", name := "n" }, 5)] }
          { tasks := [] } [] 0 10).store :=
  (second_run_adds_no_links_and_no_creations
    ⟨fun cid => if cid = "a2" then some { id := "m2", name := "n" }
        else none,
      fun _ => true, fun _ => true, fun _ => 16, fun _ => 102⟩
    ⟨fun _ => none, fun _ => none, "D"⟩ [] "W2"
    { tasks := [({ id := "a2", name := "n" }, 5)] }
    { tasks := [] } [] 0 10 100 (by decide)).1

end ClickupMotionSync
